import Mathlib

/-!
Shallow embedding of the code snippets contained in the wiki page
`wiki/web_development/fast-api.py`.

The file is a markdown document about the FastAPI web framework; the only
code it contains are the Python snippets in its fenced blocks.  Each snippet
that defines a function or a pydantic model is embedded below, one namespace
per snippet (the page redefines `read_item`, `create_item` and `Item` in
several snippets):

* `Feature2`      — lines 21–23, `read_item(item_id: int, q: str = None)`;
* `Feature4`      — lines 41–43, `read_item(item_id: int)`;
* `Feature5`      — lines 55–62, `class Item(BaseModel)` and `create_item`;
* `Feature6`      — lines 74–83, `get_db` and `read_users`;
* `Feature7`      — lines 96–100, `read_users_me`;
* `FinalExample`  — lines 121–138, the second `Item` model, `create_item`
                    with the `price_with_tax` computation, and `read_item`.

Modelling choices: Python `float` is embedded as `ℚ` (only the additions
`price + (tax or 0)` occur, with small literals, so rounding plays no role);
`Optional[T]` parameters with default `None` become `Option` arguments plus a
`_default` wrapper applying `none`; the dictionaries the handlers return
become association lists `List (String × Value)`; and every handler body is
embedded in `Except String`, so that a Python `raise` would appear as an
`.error` — none of the bodies raises, hence every embedded body is `.ok`.
-/

/-- Values appearing in the JSON-style dictionaries returned by the snippet
handlers: Python ints, strings, floats (as `ℚ`) and `None`. -/
inductive Value where
  | vInt : Int → Value
  | vStr : String → Value
  | vNum : ℚ → Value
  | vNone : Value
  deriving DecidableEq

/-- A Python dict literal with string keys, as the handlers return. -/
abbrev PyDict := List (String × Value)

/-- Python truthiness of `x or 0` for `x : Optional[float]` (line 132):
`None` and `0.0` are falsy and give `0`; any other float is returned. -/
def py_or_zero : Option ℚ → ℚ
  | none => 0
  | some t => if t = 0 then 0 else t

/-- The dict value produced for an `Optional[str]` parameter: the string
itself, or Python `None`. -/
def optStr : Option String → Value
  | none => Value.vNone
  | some s => Value.vStr s

namespace Feature2

/-- Lines 21–23: `read_item(item_id: int, q: str = None)` returns the dict
`{"item_id": item_id, "q": q}`.  The body contains no `raise`. -/
def read_item (item_id : Int) (q : Option String) : Except String PyDict :=
  .ok [("item_id", Value.vInt item_id), ("q", optStr q)]

/-- Calling `read_item` without `q` supplies the Python default `q = None`. -/
def read_item_default (item_id : Int) : Except String PyDict :=
  read_item item_id none

end Feature2

namespace Feature4

/-- Lines 41–43: `read_item(item_id: int)` returns `{"item_id": item_id}`. -/
def read_item (item_id : Int) : Except String PyDict :=
  .ok [("item_id", Value.vInt item_id)]

end Feature4

namespace Feature5

/-- Lines 55–58: `class Item(BaseModel)` with fields `name: str`,
`price: float`, `is_offer: bool = None` (so `is_offer` is optional). -/
structure Item where
  name : String
  price : ℚ
  is_offer : Option Bool
  deriving DecidableEq

/-- Lines 60–62: `create_item(item: Item)` returns `item` — its body is the
single statement `return item`. -/
def create_item (item : Item) : Except String Item :=
  .ok item

end Feature5

namespace Feature6

/-- Lines 74–79: `get_db` assigns `db = "fake_database_session"` and yields
it once; the `finally` block is `pass`.  The generator is embedded as the
list of values it yields. -/
def get_db : List String :=
  ["fake_database_session"]

/-- Lines 81–83: `read_users(db)` returns `{"db": db}`. -/
def read_users (db : String) : Except String PyDict :=
  .ok [("db", Value.vStr db)]

end Feature6

namespace Feature7

/-- Lines 98–100: `read_users_me(token: str)` returns `{"token": token}`:
the token is echoed back for every input, no check is performed on it. -/
def read_users_me (token : String) : Except String PyDict :=
  .ok [("token", Value.vStr token)]

end Feature7

namespace FinalExample

/-- Lines 121–125: the final example's `class Item(BaseModel)` with fields
`name: str`, `description: str = None`, `price: float`, `tax: float = None`. -/
structure Item where
  name : String
  description : Option String
  price : ℚ
  tax : Option ℚ
  deriving DecidableEq

/-- Lines 128–133: `create_item(item: Item)` returns
`{"name": item.name, "price_with_tax": item.price + (item.tax or 0)}`. -/
def create_item (item : Item) : Except String PyDict :=
  .ok [("name", Value.vStr item.name),
       ("price_with_tax", Value.vNum (item.price + py_or_zero item.tax))]

/-- Lines 136–138: `read_item(item_id: int, q: str = None)` returns
`{"item_id": item_id, "q": q}`. -/
def read_item (item_id : Int) (q : Option String) : Except String PyDict :=
  .ok [("item_id", Value.vInt item_id), ("q", optStr q)]

/-- Calling the final `read_item` without `q` uses the default `q = None`. -/
def read_item_default (item_id : Int) : Except String PyDict :=
  read_item item_id none

end FinalExample

/-- Claim C8: for every integer `item_id` and optional string `q`, the final
example's `read_item` returns exactly the two-key dictionary
`{"item_id": item_id, "q": q}`; when `q` is not supplied it defaults to
`None`, so the result still maps the key `"q"` to `None`.  The feature-2
snippet's `read_item` (lines 21–23) agrees with it on every input. -/
theorem read_item_two_key_dict (item_id : Int) (q : Option String) :
    ∃ d : PyDict, FinalExample.read_item item_id q = Except.ok d ∧
      d.length = 2 ∧
      d.lookup "item_id" = some (Value.vInt item_id) ∧
      d.lookup "q" = some (optStr q) ∧
      FinalExample.read_item_default item_id =
        Except.ok [("item_id", Value.vInt item_id), ("q", Value.vNone)] ∧
      Feature2.read_item item_id q = FinalExample.read_item item_id q := by
  refine ⟨_, rfl, rfl, ?_, ?_, ?_, rfl⟩
  · simp [List.lookup]
  · simp [List.lookup]
  · simp [FinalExample.read_item_default, FinalExample.read_item, optStr]

/-- Claim C9: for every `Item`, the final example's `create_item` returns a
dictionary whose `"price_with_tax"` entry equals `item.price + item.tax`
when `item.tax` is a non-zero number and equals `item.price` exactly when
`item.tax` is `None` or `0` (the expression `item.tax or 0` treats both as
falsy); the `name` field is passed through unchanged and the `description`
field never affects the result. -/
theorem create_item_price_with_tax (item : FinalExample.Item) :
    ∃ d : PyDict, FinalExample.create_item item = Except.ok d ∧
      d.lookup "name" = some (Value.vStr item.name) ∧
      d.lookup "price_with_tax" = some (Value.vNum (match item.tax with
        | some t => if t = 0 then item.price else item.price + t
        | none => item.price)) ∧
      ∀ d₂ : Option String,
        FinalExample.create_item ⟨item.name, d₂, item.price, item.tax⟩ =
          Except.ok d := by
  obtain ⟨n, desc, p, t⟩ := item
  refine ⟨_, rfl, by simp [List.lookup], ?_, fun d₂ => rfl⟩
  cases t with
  | none => simp [List.lookup, py_or_zero]
  | some t =>
      by_cases ht : t = 0 <;> simp [List.lookup, py_or_zero, ht]

/-- Claim C10: the feature-5 `create_item` is the identity on validated
`Item` values: for every `Item`, it returns its argument unchanged (its body
is `return item`, so the embedded result is `.ok` of the argument). -/
theorem create_item_identity (item : Feature5.Item) :
    Feature5.create_item item = Except.ok item := rfl

/-- Claim C3: every function defined in the snippets returns normally on
every input of its annotated types — no body contains a `raise`, so each
embedded handler produces `.ok` for all arguments; no error is raised,
classified or propagated by code present in the repository. -/
theorem snippet_functions_never_raise :
    (∀ token : String, ∃ d, Feature7.read_users_me token = Except.ok d) ∧
    (∀ item : FinalExample.Item, ∃ d, FinalExample.create_item item = Except.ok d) ∧
    (∀ item : Feature5.Item, ∃ i, Feature5.create_item item = Except.ok i) ∧
    (∀ i q, ∃ d, FinalExample.read_item i q = Except.ok d) ∧
    (∀ i q, ∃ d, Feature2.read_item i q = Except.ok d) ∧
    (∀ i, ∃ d, Feature4.read_item i = Except.ok d) ∧
    (∀ db, ∃ d, Feature6.read_users db = Except.ok d) :=
  ⟨fun _ => ⟨_, rfl⟩, fun _ => ⟨_, rfl⟩, fun _ => ⟨_, rfl⟩,
   fun _ _ => ⟨_, rfl⟩, fun _ _ => ⟨_, rfl⟩, fun _ => ⟨_, rfl⟩,
   fun _ => ⟨_, rfl⟩⟩

/-- Claim C7: none of the snippet functions itself routes a request,
validates data, resolves a dependency or checks a credential: `get_db`
yields only the hard-coded string `"fake_database_session"` (no resolution
logic); `read_users_me` echoes every token back verbatim without examining
it (no credential check); and the final `create_item` accepts every `Item`
without rejecting any input (no validation of its own). -/
theorem snippet_functions_implement_no_framework_features :
    Feature6.get_db = ["fake_database_session"] ∧
    (∀ token : String,
      Feature7.read_users_me token = Except.ok [("token", Value.vStr token)]) ∧
    (∀ item : FinalExample.Item, ∃ d, FinalExample.create_item item = Except.ok d) ∧
    (∀ db : String, Feature6.read_users db = Except.ok [("db", Value.vStr db)]) :=
  ⟨rfl, fun _ => rfl, fun _ => ⟨_, rfl⟩, fun _ => rfl⟩

/-- Counterexample to claim C1 as stated: the repository's snippets do
contain a definition of the repository's own — the record type `Item` of the
final example (lines 121–125) has typed fields that distinguish values
(`"book"` versus `"pen"` items are unequal), and `create_item` reads those
fields, producing different outputs for different `price` values. -/
theorem record_type_with_typed_fields_present :
    (FinalExample.Item.mk "book" none 10 (some 2) ==
      FinalExample.Item.mk "pen" none 10 (some 2)) = false ∧
    (FinalExample.Item.mk "book" none 10 (some 2)).price = 10 ∧
    FinalExample.create_item (FinalExample.Item.mk "book" none 10 (some 2)) =
      Except.ok [("name", Value.vStr "book"), ("price_with_tax", Value.vNum 12)] ∧
    FinalExample.create_item (FinalExample.Item.mk "book" none 20 (some 2)) =
      Except.ok [("name", Value.vStr "book"), ("price_with_tax", Value.vNum 22)] := by
  refine ⟨by decide, rfl, ?_, ?_⟩ <;>
    simp [FinalExample.create_item, py_or_zero] <;> norm_num

/-- Amended claim C1: the repository implements no algorithm, protocol or
state machine, but its snippets do define record types of the repository's
own — in particular the final example's `Item`, a class with typed fields
whose values are constructed, projected and consumed by `create_item`. -/
theorem snippets_define_own_record_type
    (n : String) (d : Option String) (p : ℚ) (t : Option ℚ) :
    (FinalExample.Item.mk n d p t).name = n ∧
    (FinalExample.Item.mk n d p t).price = p ∧
    (FinalExample.Item.mk n d p t).tax = t ∧
    ∃ dict : PyDict,
      FinalExample.create_item (FinalExample.Item.mk n d p t) = Except.ok dict ∧
        dict.lookup "name" = some (Value.vStr n) :=
  ⟨rfl, rfl, rfl, _, rfl, by simp [List.lookup]⟩

/-- Counterexample to claim C2 as stated: functions in the source file do
have behavior a scenario-based test could verify — at the concrete input
`Item "apple" 3 none`, the feature-5 `create_item` returns its argument
unchanged (an identity property), and the final `read_item` at the concrete
input `(7, "hi")` returns the definite dictionary
`{"item_id": 7, "q": "hi"}`. -/
theorem identity_and_io_behavior_present :
    Feature5.create_item (Feature5.Item.mk "apple" 3 none) =
      Except.ok (Feature5.Item.mk "apple" 3 none) ∧
    FinalExample.read_item 7 (some "hi") =
      Except.ok [("item_id", Value.vInt 7), ("q", Value.vStr "hi")] :=
  ⟨rfl, rfl⟩

/-- Amended claim C2: the repository contains no larger system behavior, but
the functions its snippets define do have deterministic input/output
behavior a test suite could exercise: the feature-5 `create_item` is the
identity on `Item` values, and the final `read_item` returns its two
parameters as a dictionary. -/
theorem snippet_functions_testable_behavior
    (item : Feature5.Item) (i : Int) (q : Option String) :
    Feature5.create_item item = Except.ok item ∧
    ∃ d : PyDict, FinalExample.read_item i q = Except.ok d ∧
      d.lookup "item_id" = some (Value.vInt i) ∧
      d.lookup "q" = some (optStr q) :=
  ⟨rfl, _, rfl, by simp [List.lookup], by simp [List.lookup]⟩

/-- Counterexample to claim C5 as stated: the feature-5 `Item` (lines 55–58)
is a record with typed, constrained fields whose values carry data — two
`Item` values differing only in `is_offer` are distinct — and it is
manipulated by `create_item`, which returns it. -/
theorem item_values_carry_state :
    (Feature5.Item.mk "thing" 5 (some true) ==
      Feature5.Item.mk "thing" 5 (some false)) = false ∧
    (Feature5.Item.mk "thing" 5 (some true)).name = "thing" ∧
    Feature5.create_item (Feature5.Item.mk "thing" 5 (some true)) =
      Except.ok (Feature5.Item.mk "thing" 5 (some true)) :=
  ⟨by decide, rfl, rfl⟩

/-- Amended claim C5: the repository maintains no persistent state across
requests, but its snippets do define records with typed fields — the two
`Item` models — whose values carry field data at runtime and are manipulated
by the `create_item` handlers. -/
theorem item_record_carries_field_state (n : String) (p : ℚ) (o : Option Bool) :
    (Feature5.Item.mk n p o).name = n ∧
    (Feature5.Item.mk n p o).price = p ∧
    (Feature5.Item.mk n p o).is_offer = o ∧
    Feature5.create_item (Feature5.Item.mk n p o) =
      Except.ok (Feature5.Item.mk n p o) :=
  ⟨rfl, rfl, rfl, rfl⟩
